import Mathlib

/-!
Verification of `src/macro_parser.py` (a command-line VBA-macro extraction
utility) against its natural-language specification.

The Python program is embedded shallowly: the external environment
(filesystem, ZIP library, olevba decoder) is an oracle value of type
`World`, and each Python function becomes a pure Lean function from the
oracle to a returned value paired with a trace of observable events
(console prints, temporary-directory lifecycle, decoder construction and
release).  A raised Python exception is an `Except.error`; the `with`
statement's guaranteed cleanup and the `try/except` handler structure are
encoded exactly where the source has them.
-/

namespace MacroExtractor

/-- One extracted macro unit, mirroring the dictionary built at
`src/macro_parser.py` lines 42-46 with keys `stream_path`,
`vba_filename`, `vba_code`. -/
structure MacroRecord where
  stream_path : String
  vba_filename : String
  vba_code : String
deriving DecidableEq, Repr

/-- One tuple `(filename, stream_path, vba_filename, vba_code)` as yielded
by the decoder's `extract_macros()` iterator (line 41 of the source). -/
structure DecodedTuple where
  filename : String
  stream_path : String
  vba_filename : String
  vba_code : String
deriving DecidableEq, Repr

/-- A raised Python exception, distinguishing `zipfile.BadZipFile` (which
has its own handler at line 51) from every other exception (caught by the
generic handler at line 54). -/
inductive PyExn where
  | badZipFile
  | other (msg : String)
deriving DecidableEq, Repr

/-- Outcome of `zipfile.ZipFile(file_path, 'r')` at line 27: it raises
`BadZipFile` for ill-formed archives, raises some other exception (for
example `IsADirectoryError`, an `OSError`, when the path is a directory),
or succeeds yielding the archive's entry-name list (`namelist()`). -/
inductive ZipOpenResult where
  | badZipFile
  | otherError (msg : String)
  | ok (namelist : List String)
deriving DecidableEq, Repr

/-- Oracle describing the behaviour of the external `olevba.VBA_Parser`
decoder on the extracted `vbaProject.bin`: whether its constructor,
`detect_vba_macros()`, `extract_macros()` or `close()` raise, what
`detect_vba_macros()` returns, and the tuple sequence `extract_macros()`
yields in order. -/
structure DecoderBehavior where
  ctorThrows : Option String
  detectThrows : Option String
  detectResult : Bool
  extractThrows : Option String
  extractResult : List DecodedTuple
  closeThrows : Option String
deriving DecidableEq, Repr

/-- Oracle for one invocation: the filesystem answer to
`os.path.exists(file_path)` (line 18), the outcome of opening the path as
a ZIP (line 27), whether `zip_ref.extract` raises (line 34), and the
decoder's behaviour (lines 38-49).  A fixed, unchanged input file
determines a fixed `World`. -/
structure World where
  pathExists : Bool
  zipOpen : ZipOpenResult
  extractEntryThrows : Option String
  decoder : DecoderBehavior
deriving DecidableEq, Repr

/-- Observable events of one invocation: console output, the
temporary-directory scope (entered and cleaned up by the `with
tempfile.TemporaryDirectory()` block at line 25), the attempt to open the
archive, extraction of the archive entry, and construction / release of
the decoder. -/
inductive Event where
  | printed (s : String)
  | tempDirCreated
  | tempDirRemoved
  | zipOpenAttempted
  | entryExtracted
  | decoderConstructed
  | decoderClosed
deriving DecidableEq, Repr

abbrev Trace := List Event

/-- The fixed internal archive path searched for, line 28 of the source. -/
def vba_project_path_in_zip : String := "xl/vbaProject.bin"

/-- Console message for a missing input file, line 19. -/
def notFoundMsg (p : String) : String := "Error: File not found at " ++ p

/-- Console message for a macro-free archive, line 30. -/
def noMacroProjectMsg : String :=
  "No vbaProject.bin found in the .xlsm file. It may be macro-free."

/-- Console message printed before extraction, line 40. -/
def foundMsg : String := "VBA Macros found, extracting..."

/-- Console message when the decoder detects nothing, line 48. -/
def notDetectedMsg : String := "No VBA macros were detected by the parser."

/-- Console message for an ill-formed archive, line 52. -/
def invalidContainerMsg (p : String) : String :=
  "Error: '" ++ p ++ "' is not a valid zip file (or .xlsm file)."

/-- Console message of the generic handler, line 55. -/
def unexpectedMsg (e : String) : String :=
  "An unexpected error occurred: " ++ e

/-- Usage message of the CLI driver, line 65. -/
def usageMsg : String := "Usage: python macro_parser.py <path_to_xlsm_file>"

/-- Console message of the CLI driver for an empty result, line 74. -/
def noMacrosExtractedMsg : String := "No macros were extracted."

/-- Mapping from a decoder tuple to the appended dictionary,
lines 42-46 of the source. -/
def recordOfTuple (t : DecodedTuple) : MacroRecord :=
  { stream_path := t.stream_path
    vba_filename := t.vba_filename
    vba_code := t.vba_code }

/-- Lines 27-49 of the source: the body of the `try` statement, executed
inside the temporary-directory scope.  An `Except.error` is an exception
propagating out of this region to the handlers at lines 51-56.  Note that
when `detect_vba_macros()` or `extract_macros()` raises, control leaves
this region before the `vba_parser.close()` call at line 49 is reached,
so no `decoderClosed` event is emitted on those paths; tuples already
yielded before a mid-iteration failure are discarded by the handler, so
they are not materialised here. -/
def tryBody (w : World) : Except PyExn (List MacroRecord) × Trace :=
  match w.zipOpen with
  | ZipOpenResult.badZipFile => (Except.error PyExn.badZipFile, [Event.zipOpenAttempted])
  | ZipOpenResult.otherError m => (Except.error (PyExn.other m), [Event.zipOpenAttempted])
  | ZipOpenResult.ok names =>
    if names.contains vba_project_path_in_zip then
      match w.extractEntryThrows with
      | some m =>
          (Except.error (PyExn.other m), [Event.zipOpenAttempted, Event.entryExtracted])
      | none =>
        match w.decoder.ctorThrows with
        | some m =>
            (Except.error (PyExn.other m),
             [Event.zipOpenAttempted, Event.entryExtracted, Event.decoderConstructed])
        | none =>
          match w.decoder.detectThrows with
          | some m =>
              (Except.error (PyExn.other m),
               [Event.zipOpenAttempted, Event.entryExtracted, Event.decoderConstructed])
          | none =>
            let pre : Trace :=
              [Event.zipOpenAttempted, Event.entryExtracted, Event.decoderConstructed]
            let branch : Except PyExn (List MacroRecord) × Trace :=
              if w.decoder.detectResult then
                match w.decoder.extractThrows with
                | some m => (Except.error (PyExn.other m), [Event.printed foundMsg])
                | none =>
                    (Except.ok (w.decoder.extractResult.map recordOfTuple),
                     [Event.printed foundMsg])
              else
                (Except.ok [], [Event.printed notDetectedMsg])
            match branch with
            | (Except.error e, t) => (Except.error e, pre ++ t)
            | (Except.ok macros, t) =>
              match w.decoder.closeThrows with
              | some m =>
                  (Except.error (PyExn.other m), pre ++ t ++ [Event.decoderClosed])
              | none => (Except.ok macros, pre ++ t ++ [Event.decoderClosed])
    else
      (Except.ok [], [Event.zipOpenAttempted, Event.printed noMacroProjectMsg])

/-- Lines 18-58 of the source: `extract_macros_from_xlsm`.  The early
existence check, the temporary-directory scope whose cleanup runs on
every exit from the `with` block, the `try` body, and the two exception
handlers that print and return an empty list. -/
def extract_macros_from_xlsm (file_path : String) (w : World) :
    Except PyExn (List MacroRecord) × Trace :=
  if !w.pathExists then
    (Except.ok [], [Event.printed (notFoundMsg file_path)])
  else
    match tryBody w with
    | (Except.ok macros, t) =>
        (Except.ok macros, Event.tempDirCreated :: t ++ [Event.tempDirRemoved])
    | (Except.error PyExn.badZipFile, t) =>
        (Except.ok [],
         Event.tempDirCreated :: t ++
           [Event.printed (invalidContainerMsg file_path), Event.tempDirRemoved])
    | (Except.error (PyExn.other m), t) =>
        (Except.ok [],
         Event.tempDirCreated :: t ++
           [Event.printed (unexpectedMsg m), Event.tempDirRemoved])

/-- Per-record console rendering of the CLI driver, lines 79-84, with the
1-based counter of `enumerate(extracted_macros, 1)`. -/
def renderRecord (i : Nat) (m : MacroRecord) : Trace :=
  [Event.printed ("\n--- Macro #" ++ toString i ++ " ---"),
   Event.printed ("Stream Path: " ++ m.stream_path),
   Event.printed ("VBA Filename: " ++ m.vba_filename),
   Event.printed "--- Code ---",
   Event.printed m.vba_code,
   Event.printed "--- End Code ---"]

/-- The `for i, macro_info in enumerate(extracted_macros, 1)` loop,
lines 78-84. -/
def renderRecords : Nat → List MacroRecord → Trace
  | _, [] => []
  | i, m :: rest => renderRecord i m ++ renderRecords (i + 1) rest

/-- Lines 60-84 of the source: the CLI driver `main`.  `argv` is the full
`sys.argv` (program name included), the returned `Nat` is the process
exit status: `sys.exit(1)` gives 1, normal return gives 0, and an
exception escaping `extract_macros_from_xlsm` would end the interpreter
with a non-zero status (that branch is shown below and proved dead). -/
def main (argv : List String) (w : World) : Nat × Trace :=
  match argv with
  | [_, file_to_parse] =>
    let t0 : Trace := [Event.printed ("Analyzing " ++ file_to_parse ++ "...")]
    match extract_macros_from_xlsm file_to_parse w with
    | (Except.error _, t) => (1, t0 ++ t)
    | (Except.ok extracted, t) =>
      if extracted.isEmpty then
        (0, t0 ++ t ++ [Event.printed noMacrosExtractedMsg])
      else
        (0, t0 ++ t ++ [Event.printed "\n--- Extracted Macros ---"] ++
              renderRecords 1 extracted)
  | _ => (1, [Event.printed usageMsg])

/-- A decoder that runs without fault and reports no macros. -/
def quietDecoder : DecoderBehavior :=
  { ctorThrows := none, detectThrows := none, detectResult := false,
    extractThrows := none, extractResult := [], closeThrows := none }

/-- A decoder whose `extract_macros()` iterator raises after detection
succeeded (for example on a corrupted stream inside `vbaProject.bin`). -/
def faultingDecoder : DecoderBehavior :=
  { ctorThrows := none, detectThrows := none, detectResult := true,
    extractThrows := some "OleFileError", extractResult := [], closeThrows := none }

/-- World of a valid archive containing the macro entry whose decoder
raises during `extract_macros()`. -/
def wDecodeFault : World :=
  { pathExists := true, zipOpen := ZipOpenResult.ok [vba_project_path_in_zip],
    extractEntryThrows := none, decoder := faultingDecoder }

/-- World of a nonexistent input path. -/
def wMissing : World :=
  { pathExists := false, zipOpen := ZipOpenResult.badZipFile,
    extractEntryThrows := none, decoder := quietDecoder }

/-- World of an existing file whose bytes are not a valid ZIP archive. -/
def wNotZip : World :=
  { pathExists := true, zipOpen := ZipOpenResult.badZipFile,
    extractEntryThrows := none, decoder := quietDecoder }

/-- World of a valid ZIP archive lacking the `xl/vbaProject.bin` entry. -/
def wNoProject : World :=
  { pathExists := true,
    zipOpen := ZipOpenResult.ok ["[Content_Types].xml", "xl/workbook.xml"],
    extractEntryThrows := none, decoder := quietDecoder }

/-- World of an existing directory: `os.path.exists` answers true, and
opening the directory as a ZIP raises `IsADirectoryError`, an `OSError`
that is not `zipfile.BadZipFile`. -/
def wDirectory : World :=
  { pathExists := true, zipOpen := ZipOpenResult.otherError "IsADirectoryError",
    extractEntryThrows := none, decoder := quietDecoder }

/-- The single tuple of the C2 scenario as an OLE decoder would actually
report it: the stream path names the module stream inside the binary,
not the archive entry. -/
def tupleOleStream : DecodedTuple :=
  { filename := "vbaProject.bin", stream_path := "VBA/Module1",
    vba_filename := "Module1", vba_code := "Sub Test()\nEnd Sub" }

/-- A fault-free decoder reporting exactly the one tuple above. -/
def oleStreamDecoder : DecoderBehavior :=
  { ctorThrows := none, detectThrows := none, detectResult := true,
    extractThrows := none, extractResult := [tupleOleStream], closeThrows := none }

/-- World of a valid archive with the macro entry and the decoder above. -/
def wOleStream : World :=
  { pathExists := true,
    zipOpen := ZipOpenResult.ok ["[Content_Types].xml", vba_project_path_in_zip],
    extractEntryThrows := none, decoder := oleStreamDecoder }

/-- The single tuple of the C2 scenario with the stream path equal to the
archive entry path. -/
def tupleEntryStream : DecodedTuple :=
  { filename := "vbaProject.bin", stream_path := vba_project_path_in_zip,
    vba_filename := "Module1", vba_code := "Sub Test()\nEnd Sub" }

/-- A fault-free decoder reporting exactly the one entry-path tuple. -/
def entryStreamDecoder : DecoderBehavior :=
  { ctorThrows := none, detectThrows := none, detectResult := true,
    extractThrows := none, extractResult := [tupleEntryStream], closeThrows := none }

/-- World of a valid archive with the macro entry and the decoder above. -/
def wEntryStream : World :=
  { pathExists := true,
    zipOpen := ZipOpenResult.ok ["[Content_Types].xml", vba_project_path_in_zip],
    extractEntryThrows := none, decoder := entryStreamDecoder }

/-- Helper: on every input the extractor returns normally with some list;
no exception reaches the caller. -/
theorem extract_result_is_ok (file_path : String) (w : World) :
    ∃ ms, (extract_macros_from_xlsm file_path w).1 = Except.ok ms := by
  unfold extract_macros_from_xlsm
  cases hp : w.pathExists with
  | false => exact ⟨[], rfl⟩
  | true =>
    rcases htb : tryBody w with ⟨res, t⟩
    cases res with
    | ok macros => exact ⟨macros, by simp [hp, htb]⟩
    | error e =>
      cases e with
      | badZipFile => exact ⟨[], by simp [hp, htb]⟩
      | other m => exact ⟨[], by simp [hp, htb]⟩

/-- C1: on a valid archive containing `xl/vbaProject.bin` whose decoder
raises during `extract_macros()`, the decoder is constructed once but
`close()` is never reached (the exception jumps to the generic handler
at line 54, skipping line 49), so the release count is 0, not 1, while
the call still returns an empty list.  This contradicts the claimed
"released exactly once regardless of whether decoding ... throws". -/
theorem claim_C1_close_skipped_on_fault :
    (extract_macros_from_xlsm "with_macro.xlsm" wDecodeFault).2.count
        Event.decoderConstructed = 1 ∧
    (extract_macros_from_xlsm "with_macro.xlsm" wDecodeFault).2.count
        Event.decoderClosed = 0 ∧
    (extract_macros_from_xlsm "with_macro.xlsm" wDecodeFault).1 = Except.ok [] :=
  ⟨rfl, rfl, rfl⟩

/-- C5: when the path does not reference an existing file the extractor
returns the empty list having printed only the NotFound message; in
particular no attempt to open the file as an archive is made. -/
theorem claim_C5_not_found (file_path : String) (w : World)
    (h : w.pathExists = false) :
    extract_macros_from_xlsm file_path w =
      (Except.ok [], [Event.printed (notFoundMsg file_path)]) ∧
    Event.zipOpenAttempted ∉ (extract_macros_from_xlsm file_path w).2 := by
  constructor
  · simp [extract_macros_from_xlsm, h]
  · simp [extract_macros_from_xlsm, h]

/-- Witness for C5 at the `missing.xlsm` scenario world. -/
theorem claim_C5_not_found_witness :
    extract_macros_from_xlsm "missing.xlsm" wMissing =
      (Except.ok [], [Event.printed (notFoundMsg "missing.xlsm")]) ∧
    Event.zipOpenAttempted ∉ (extract_macros_from_xlsm "missing.xlsm" wMissing).2 :=
  claim_C5_not_found "missing.xlsm" wMissing rfl

/-- C6: when the existing input is not a valid ZIP archive, opening it
raises `BadZipFile`, whose handler prints the InvalidContainer message
and returns the empty list (the temporary scope still being cleaned up). -/
theorem claim_C6_invalid_container (file_path : String) (w : World)
    (hex : w.pathExists = true) (hz : w.zipOpen = ZipOpenResult.badZipFile) :
    extract_macros_from_xlsm file_path w =
      (Except.ok [],
       [Event.tempDirCreated, Event.zipOpenAttempted,
        Event.printed (invalidContainerMsg file_path), Event.tempDirRemoved]) := by
  simp [extract_macros_from_xlsm, tryBody, hex, hz]

/-- Witness for C6 at the `not_a_zip.xlsm` scenario world. -/
theorem claim_C6_invalid_container_witness :
    extract_macros_from_xlsm "not_a_zip.xlsm" wNotZip =
      (Except.ok [],
       [Event.tempDirCreated, Event.zipOpenAttempted,
        Event.printed (invalidContainerMsg "not_a_zip.xlsm"), Event.tempDirRemoved]) :=
  claim_C6_invalid_container "not_a_zip.xlsm" wNotZip rfl rfl

/-- C7: on a valid ZIP archive whose entry list lacks
`xl/vbaProject.bin`, the extractor prints the NoMacroProject message and
returns the empty list without extracting any entry or constructing the
decoder. -/
theorem claim_C7_no_macro_project (file_path : String) (names : List String)
    (w : World) (hex : w.pathExists = true)
    (hz : w.zipOpen = ZipOpenResult.ok names)
    (hmem : vba_project_path_in_zip ∉ names) :
    extract_macros_from_xlsm file_path w =
      (Except.ok [],
       [Event.tempDirCreated, Event.zipOpenAttempted,
        Event.printed noMacroProjectMsg, Event.tempDirRemoved]) ∧
    Event.entryExtracted ∉ (extract_macros_from_xlsm file_path w).2 ∧
    Event.decoderConstructed ∉ (extract_macros_from_xlsm file_path w).2 := by
  have h1 : extract_macros_from_xlsm file_path w =
      (Except.ok [],
       [Event.tempDirCreated, Event.zipOpenAttempted,
        Event.printed noMacroProjectMsg, Event.tempDirRemoved]) := by
    simp [extract_macros_from_xlsm, tryBody, hex, hz, hmem]
  refine ⟨h1, ?_, ?_⟩ <;> rw [h1] <;> simp

/-- Witness for C7 at the `no_macros.xlsm` scenario world. -/
theorem claim_C7_no_macro_project_witness :
    extract_macros_from_xlsm "no_macros.xlsm" wNoProject =
      (Except.ok [],
       [Event.tempDirCreated, Event.zipOpenAttempted,
        Event.printed noMacroProjectMsg, Event.tempDirRemoved]) ∧
    Event.entryExtracted ∉ (extract_macros_from_xlsm "no_macros.xlsm" wNoProject).2 ∧
    Event.decoderConstructed ∉
      (extract_macros_from_xlsm "no_macros.xlsm" wNoProject).2 :=
  claim_C7_no_macro_project "no_macros.xlsm"
    ["[Content_Types].xml", "xl/workbook.xml"] wNoProject rfl rfl (by decide)

/-- C2 counterexample: a world satisfying the claim's hypothesis — a
valid archive with the entry, whose decoder reports exactly one module
named `Module1` with source `Sub Test()\nEnd Sub` — on which the result
record's stream path is the decoder-reported `VBA/Module1`, not the
claimed `xl/vbaProject.bin`: the code copies `stream_path` verbatim from
the decoder's tuple (line 43), so the claimed output does not follow. -/
theorem claim_C2_counterexample :
    oleStreamDecoder.extractResult.map DecodedTuple.vba_filename = ["Module1"] ∧
    oleStreamDecoder.extractResult.map DecodedTuple.vba_code =
      ["Sub Test()\nEnd Sub"] ∧
    (extract_macros_from_xlsm "with_macro.xlsm" wOleStream).1 =
      Except.ok [{ stream_path := "VBA/Module1", vba_filename := "Module1",
                   vba_code := "Sub Test()\nEnd Sub" }] ∧
    (extract_macros_from_xlsm "with_macro.xlsm" wOleStream).1 ≠
      Except.ok [{ stream_path := vba_project_path_in_zip,
                   vba_filename := "Module1",
                   vba_code := "Sub Test()\nEnd Sub" }] := by
  refine ⟨rfl, rfl, rfl, ?_⟩
  have h1 : (extract_macros_from_xlsm "with_macro.xlsm" wOleStream).1 =
      Except.ok [{ stream_path := "VBA/Module1", vba_filename := "Module1",
                   vba_code := "Sub Test()\nEnd Sub" }] := rfl
  rw [h1]
  simp [vba_project_path_in_zip]

/-- C2 amended: when the decoder of that archive reports exactly one
tuple whose stream path is `xl/vbaProject.bin`, module name `Module1`
and source `Sub Test()\nEnd Sub`, the extractor returns the one-element
list with exactly those three fields. -/
theorem claim_C2_single_module (file_path fname : String)
    (names : List String) (w : World) (hex : w.pathExists = true)
    (hz : w.zipOpen = ZipOpenResult.ok names)
    (hmem : vba_project_path_in_zip ∈ names)
    (hee : w.extractEntryThrows = none)
    (hd : w.decoder =
      { ctorThrows := none, detectThrows := none, detectResult := true,
        extractThrows := none,
        extractResult :=
          [{ filename := fname, stream_path := vba_project_path_in_zip,
             vba_filename := "Module1", vba_code := "Sub Test()\nEnd Sub" }],
        closeThrows := none }) :
    (extract_macros_from_xlsm file_path w).1 =
      Except.ok [{ stream_path := vba_project_path_in_zip,
                   vba_filename := "Module1",
                   vba_code := "Sub Test()\nEnd Sub" }] := by
  simp [extract_macros_from_xlsm, tryBody, hex, hz, hmem, hee, hd, recordOfTuple]

/-- Witness for the amended C2 at the `with_macro.xlsm` scenario world. -/
theorem claim_C2_single_module_witness :
    (extract_macros_from_xlsm "with_macro.xlsm" wEntryStream).1 =
      Except.ok [{ stream_path := vba_project_path_in_zip,
                   vba_filename := "Module1",
                   vba_code := "Sub Test()\nEnd Sub" }] :=
  claim_C2_single_module "with_macro.xlsm" "vbaProject.bin"
    ["[Content_Types].xml", vba_project_path_in_zip] wEntryStream
    rfl rfl (by decide) rfl rfl

/-- C3: the extractor never propagates an exception: every invocation
returns `Except.ok` with some list, and any exception raised inside the
try region other than `BadZipFile` is absorbed by the generic handler,
which prints the unexpected-failure message and returns the empty
list. -/
theorem claim_C3_absorbs_faults (file_path : String) (w : World) :
    (∃ ms, (extract_macros_from_xlsm file_path w).1 = Except.ok ms) ∧
    (∀ m t, w.pathExists = true →
      tryBody w = (Except.error (PyExn.other m), t) →
      extract_macros_from_xlsm file_path w =
        (Except.ok [],
         Event.tempDirCreated :: t ++
           [Event.printed (unexpectedMsg m), Event.tempDirRemoved])) := by
  refine ⟨extract_result_is_ok file_path w, ?_⟩
  intro m t hex htb
  simp [extract_macros_from_xlsm, hex, htb]

/-- Witness for C3 at a world whose decoder raises during extraction. -/
theorem claim_C3_absorbs_faults_witness :
    extract_macros_from_xlsm "with_macro.xlsm" wDecodeFault =
      (Except.ok [],
       Event.tempDirCreated ::
         [Event.zipOpenAttempted, Event.entryExtracted,
          Event.decoderConstructed, Event.printed foundMsg] ++
         [Event.printed (unexpectedMsg "OleFileError"), Event.tempDirRemoved]) :=
  (claim_C3_absorbs_faults "with_macro.xlsm" wDecodeFault).2
    "OleFileError"
    [Event.zipOpenAttempted, Event.entryExtracted,
     Event.decoderConstructed, Event.printed foundMsg]
    rfl rfl

/-- Helper: the try region emits no temporary-directory events; creation
and removal belong to the enclosing `with` block alone. -/
theorem tryBody_no_tempdir_events (w : World) :
    Event.tempDirCreated ∉ (tryBody w).2 ∧ Event.tempDirRemoved ∉ (tryBody w).2 := by
  unfold tryBody
  rcases w with ⟨pe, zo, ee, ⟨ct, dt, dr, et, er, clt⟩⟩
  cases zo <;> cases ee <;> cases ct <;> cases dt <;> cases dr <;> cases et <;>
    cases clt <;> simp <;> split_ifs <;> simp

/-- C4: on every input and every exit path the number of temporary
directories created equals the number removed, and when the input exists
exactly one temporary scope is created for the call. -/
theorem claim_C4_tempdir_released (file_path : String) (w : World) :
    (extract_macros_from_xlsm file_path w).2.count Event.tempDirCreated =
      (extract_macros_from_xlsm file_path w).2.count Event.tempDirRemoved ∧
    (w.pathExists = true →
      (extract_macros_from_xlsm file_path w).2.count Event.tempDirCreated = 1) := by
  obtain ⟨hc, hr⟩ := tryBody_no_tempdir_events w
  rcases htb : tryBody w with ⟨res, t⟩
  rw [htb] at hc hr
  have hc0 : t.count Event.tempDirCreated = 0 := List.count_eq_zero.mpr hc
  have hr0 : t.count Event.tempDirRemoved = 0 := List.count_eq_zero.mpr hr
  cases hp : w.pathExists with
  | false =>
    constructor
    · simp [extract_macros_from_xlsm, hp]
    · intro h; exact Bool.noConfusion h
  | true =>
    cases res with
    | ok macros =>
      constructor <;>
        simp [extract_macros_from_xlsm, hp, htb, List.count_cons, List.count_append,
          hc0, hr0]
    | error e =>
      cases e with
      | badZipFile =>
        constructor <;>
          simp [extract_macros_from_xlsm, hp, htb, List.count_cons, List.count_append,
            hc0, hr0]
      | other m =>
        constructor <;>
          simp [extract_macros_from_xlsm, hp, htb, List.count_cons, List.count_append,
            hc0, hr0]

/-- Witness for C4 at the decode-fault world, an exceptional exit path. -/
theorem claim_C4_tempdir_released_witness :
    (extract_macros_from_xlsm "with_macro.xlsm" wDecodeFault).2.count
        Event.tempDirCreated =
      (extract_macros_from_xlsm "with_macro.xlsm" wDecodeFault).2.count
        Event.tempDirRemoved ∧
    (extract_macros_from_xlsm "with_macro.xlsm" wDecodeFault).2.count
        Event.tempDirCreated = 1 :=
  ⟨(claim_C4_tempdir_released "with_macro.xlsm" wDecodeFault).1,
   (claim_C4_tempdir_released "with_macro.xlsm" wDecodeFault).2 rfl⟩

/-- First tuple of the two-module order scenario. -/
def tupleA : DecodedTuple :=
  { filename := "vbaProject.bin", stream_path := "VBA/Module1",
    vba_filename := "Module1", vba_code := "Sub A()\nEnd Sub" }

/-- Second tuple of the two-module order scenario. -/
def tupleB : DecodedTuple :=
  { filename := "vbaProject.bin", stream_path := "VBA/Module2",
    vba_filename := "Module2", vba_code := "Sub B()\nEnd Sub" }

/-- A fault-free decoder reporting two modules in a fixed order. -/
def twoModuleDecoder : DecoderBehavior :=
  { ctorThrows := none, detectThrows := none, detectResult := true,
    extractThrows := none, extractResult := [tupleA, tupleB], closeThrows := none }

/-- World of a valid archive whose decoder reports two modules. -/
def wTwoModules : World :=
  { pathExists := true, zipOpen := ZipOpenResult.ok [vba_project_path_in_zip],
    extractEntryThrows := none, decoder := twoModuleDecoder }

/-- C8: on a successful decoding pass the result is exactly the map of
the decoder's reported tuple sequence, record for record in the decoder's
order; and since an unchanged file determines one `World`, a second call
on it is the same application and returns the identical sequence. -/
theorem claim_C8_order_preserved (file_path : String) (names : List String)
    (w : World) (hex : w.pathExists = true)
    (hz : w.zipOpen = ZipOpenResult.ok names)
    (hmem : vba_project_path_in_zip ∈ names)
    (hee : w.extractEntryThrows = none)
    (hct : w.decoder.ctorThrows = none)
    (hdt : w.decoder.detectThrows = none)
    (hdr : w.decoder.detectResult = true)
    (het : w.decoder.extractThrows = none)
    (hcl : w.decoder.closeThrows = none) :
    (extract_macros_from_xlsm file_path w).1 =
      Except.ok (w.decoder.extractResult.map recordOfTuple) ∧
    extract_macros_from_xlsm file_path w = extract_macros_from_xlsm file_path w := by
  refine ⟨?_, rfl⟩
  simp [extract_macros_from_xlsm, tryBody, hex, hz, hmem, hee, hct, hdt, hdr,
    het, hcl]

/-- Witness for C8 at the two-module world, where the mapped sequence is
`[Module1, Module2]` in the decoder's order. -/
theorem claim_C8_order_preserved_witness :
    (extract_macros_from_xlsm "with_macro.xlsm" wTwoModules).1 =
      Except.ok (wTwoModules.decoder.extractResult.map recordOfTuple) ∧
    extract_macros_from_xlsm "with_macro.xlsm" wTwoModules =
      extract_macros_from_xlsm "with_macro.xlsm" wTwoModules :=
  claim_C8_order_preserved "with_macro.xlsm" [vba_project_path_in_zip] wTwoModules
    rfl rfl (by decide) rfl rfl rfl rfl rfl rfl

/-- C9: the CLI driver exits non-zero having printed the usage line
exactly when `sys.argv` does not have length 2 (program name plus one
argument); with exactly one argument it always exits 0 — the extractor
never raises — and prints the no-macros message whenever the result is
empty. -/
theorem claim_C9_cli_exit_codes (argv : List String) (w : World) :
    (((main argv w).1 ≠ 0 ∧ Event.printed usageMsg ∈ (main argv w).2) ↔
      argv.length ≠ 2) ∧
    (∀ p f, argv = [p, f] →
      (main argv w).1 = 0 ∧
      ((extract_macros_from_xlsm f w).1 = Except.ok [] →
        Event.printed noMacrosExtractedMsg ∈ (main argv w).2)) := by
  have hmain2 : ∀ p f : String, (main [p, f] w).1 = 0 ∧
      ((extract_macros_from_xlsm f w).1 = Except.ok [] →
        Event.printed noMacrosExtractedMsg ∈ (main [p, f] w).2) := by
    intro p f
    obtain ⟨ms, hms⟩ := extract_result_is_ok f w
    rcases hx : extract_macros_from_xlsm f w with ⟨res, t⟩
    have hres : res = Except.ok ms := by rw [hx] at hms; exact hms
    subst hres
    constructor
    · simp only [main, hx]
      split <;> rfl
    · intro hok
      have hms0 : ms = [] := by simpa using hok
      subst hms0
      simp [main, hx]
  rcases argv with _ | ⟨a, _ | ⟨b, _ | ⟨c, rest⟩⟩⟩
  · refine ⟨by simp [main, usageMsg], ?_⟩
    intro p f h
    exact List.noConfusion h
  · refine ⟨by simp [main, usageMsg], ?_⟩
    intro p f h
    injection h with _ h2
    exact List.noConfusion h2
  · refine ⟨?_, ?_⟩
    · constructor
      · rintro ⟨hne, _⟩
        exact absurd (hmain2 a b).1 hne
      · intro hlen
        exact absurd rfl hlen
    · intro p f h
      injection h with h1 h2
      injection h2 with h3 _
      subst h1
      subst h3
      exact hmain2 a b
  · refine ⟨?_, ?_⟩
    · constructor
      · intro _
        simp [List.length_cons]
      · intro _
        exact ⟨by simp [main], by simp [main]⟩
    · intro p f h
      injection h with _ h2
      injection h2 with _ h4
      exact List.noConfusion h4

/-- Witness for C9: zero-argument invocation exits non-zero with the
usage line; a one-argument invocation on a missing file exits 0 and
prints the no-macros message. -/
theorem claim_C9_cli_exit_codes_witness :
    ((main ["macro_parser.py"] wMissing).1 ≠ 0 ∧
      Event.printed usageMsg ∈ (main ["macro_parser.py"] wMissing).2) ∧
    (main ["macro_parser.py", "missing.xlsm"] wMissing).1 = 0 ∧
    Event.printed noMacrosExtractedMsg ∈
      (main ["macro_parser.py", "missing.xlsm"] wMissing).2 := by
  refine ⟨?_, ?_, ?_⟩
  · exact (claim_C9_cli_exit_codes ["macro_parser.py"] wMissing).1.mpr (by decide)
  · exact ((claim_C9_cli_exit_codes ["macro_parser.py", "missing.xlsm"]
      wMissing).2 "macro_parser.py" "missing.xlsm" rfl).1
  · exact ((claim_C9_cli_exit_codes ["macro_parser.py", "missing.xlsm"]
      wMissing).2 "macro_parser.py" "missing.xlsm" rfl).2 rfl

/-- Helper: the generic handler's message never coincides with the
NotFound message, whatever the interpolated parts: their first
characters differ. -/
theorem unexpected_ne_notFound (m p : String) : unexpectedMsg m ≠ notFoundMsg p := by
  intro h
  have h2 : (unexpectedMsg m).data.head? = (notFoundMsg p).data.head? := by rw [h]
  simp only [unexpectedMsg, notFoundMsg, String.data_append] at h2
  simp only [List.cons_append, List.head?_cons] at h2
  exact absurd h2 (by decide)

/-- Helper: the generic handler's message never coincides with the
InvalidContainer message, whatever the interpolated parts. -/
theorem unexpected_ne_invalid (m p : String) :
    unexpectedMsg m ≠ invalidContainerMsg p := by
  intro h
  have h2 : (unexpectedMsg m).data.head? = (invalidContainerMsg p).data.head? := by
    rw [h]
  simp only [unexpectedMsg, invalidContainerMsg, String.data_append] at h2
  simp only [List.cons_append, List.append_assoc, List.head?_cons] at h2
  exact absurd h2 (by decide)

/-- C10: a path naming an existing directory passes the existence check
(`os.path.exists` is true for directories) and makes `zipfile.ZipFile`
raise an `OSError` such as `IsADirectoryError`, which is not
`BadZipFile`; the generic handler absorbs it, so the extractor returns
the empty list having printed only the unexpected-failure message —
neither the NotFound nor the InvalidContainer message appears. -/
theorem claim_C10_directory_input (file_path m : String) (w : World)
    (hex : w.pathExists = true)
    (hz : w.zipOpen = ZipOpenResult.otherError m) :
    extract_macros_from_xlsm file_path w =
      (Except.ok [],
       [Event.tempDirCreated, Event.zipOpenAttempted,
        Event.printed (unexpectedMsg m), Event.tempDirRemoved]) ∧
    Event.printed (notFoundMsg file_path) ∉
      (extract_macros_from_xlsm file_path w).2 ∧
    Event.printed (invalidContainerMsg file_path) ∉
      (extract_macros_from_xlsm file_path w).2 := by
  have h1 : extract_macros_from_xlsm file_path w =
      (Except.ok [],
       [Event.tempDirCreated, Event.zipOpenAttempted,
        Event.printed (unexpectedMsg m), Event.tempDirRemoved]) := by
    simp [extract_macros_from_xlsm, tryBody, hex, hz]
  refine ⟨h1, ?_, ?_⟩
  · rw [h1]
    intro hmem
    simp only [List.mem_cons, List.not_mem_nil, or_false] at hmem
    rcases hmem with h | h | h | h
    · exact Event.noConfusion h
    · exact Event.noConfusion h
    · exact unexpected_ne_notFound m file_path (Event.printed.inj h).symm
    · exact Event.noConfusion h
  · rw [h1]
    intro hmem
    simp only [List.mem_cons, List.not_mem_nil, or_false] at hmem
    rcases hmem with h | h | h | h
    · exact Event.noConfusion h
    · exact Event.noConfusion h
    · exact unexpected_ne_invalid m file_path (Event.printed.inj h).symm
    · exact Event.noConfusion h

/-- Witness for C10 at the directory world. -/
theorem claim_C10_directory_input_witness :
    extract_macros_from_xlsm "some_dir" wDirectory =
      (Except.ok [],
       [Event.tempDirCreated, Event.zipOpenAttempted,
        Event.printed (unexpectedMsg "IsADirectoryError"), Event.tempDirRemoved]) ∧
    Event.printed (notFoundMsg "some_dir") ∉
      (extract_macros_from_xlsm "some_dir" wDirectory).2 ∧
    Event.printed (invalidContainerMsg "some_dir") ∉
      (extract_macros_from_xlsm "some_dir" wDirectory).2 :=
  claim_C10_directory_input "some_dir" "IsADirectoryError" wDirectory rfl rfl

end MacroExtractor
